import Mathlib

/-!
Shallow embedding of the pybootd BOOTP/DHCP/PXE server core.

The definitions below are translated from `pybootd/pxed.py` and
`pybootd/pybootdconfig.py` (Python 2).  Python byte strings are modelled as
`List Nat`, Python dicts as association lists with overwrite-or-append
assignment, Python `None`-returning or exception-raising control flow as
explicit result constructors.  External collaborators that the source calls
but does not define (`util.get_iface_config`, `util.to_bool`,
`socket.gethostbyname`, `/etc/resolv.conf` lookup, the YAML configuration
contents, and the UDP socket) are supplied through an explicit environment
record.  Logging has no observable effect in the analysed core and is not
modelled.
-/

set_option maxRecDepth 10000

namespace Pybootd

/-- Python 2 byte strings are modelled as lists of naturals (one per byte). -/
abbrev Bytes := List Nat

/-- Python dict lookup, `d.get(k)` / `d[k]` / `k in d` on a dict kept as an
insertion-ordered association list. -/
def dget {α β : Type} [DecidableEq α] : List (α × β) → α → Option β
  | [], _ => none
  | (k, v) :: rest, j => if j = k then some v else dget rest j

/-- Python dict assignment `d[k] = v`: overwrite the existing entry in place,
otherwise append at the end (Python dicts preserve insertion order). -/
def dset {α β : Type} [DecidableEq α] : List (α × β) → α → β → List (α × β)
  | [], k, v => [(k, v)]
  | (k', v') :: rest, k, v =>
    if k = k' then (k, v) :: rest else (k', v') :: dset rest k v

/-- Python `d.setdefault(k, v)`: insert `v` only when `k` is absent. -/
def dsetdefault {α β : Type} [DecidableEq α] (d : List (α × β)) (k : α) (v : β) :
    List (α × β) :=
  match dget d k with
  | some _ => d
  | none => d ++ [(k, v)]

/-- Bytes of a Lean string literal, used for the ASCII strings the server
builds (`'Python'`, `'Stupid PXE'`, host names, ...). -/
def strBytes (s : String) : Bytes := s.data.map Char.toNat

/-- Splitting a character list at a separator character, the way Python
`str.split(sep)` behaves on single-character separators. -/
def splitOnChar (c : Char) : List Char → List (List Char)
  | [] => [[]]
  | x :: xs =>
    if x = c then [] :: splitOnChar c xs
    else
      match splitOnChar c xs with
      | [] => [[x]]
      | g :: gs => (x :: g) :: gs

/-- Python `s.split(c)` for a one-character separator. -/
def pySplit (s : String) (c : Char) : List String :=
  (splitOnChar c s.data).map String.mk

/-- Whitespace recognised by Python `str.strip()` (the characters relevant to
host names). -/
def isSpaceChar (c : Char) : Bool :=
  c == ' ' || c == '\t' || c == '\n' || c == '\r'

/-- Python `s.strip()`. -/
def pyStrip (s : String) : String :=
  String.mk (((s.data.dropWhile isSpaceChar).reverse.dropWhile isSpaceChar).reverse)

/-- Python `s.lower()`. -/
def pyLower (s : String) : String := String.mk (s.data.map Char.toLower)

/-- Decimal value of a digit string (the well-formed inputs `int()` receives
here). -/
def parseNat (cs : List Char) : Nat := cs.foldl (fun a c => a * 10 + (c.toNat - 48)) 0

/-- Decimal rendering of a natural, Python `'%d' % n`. -/
def natStr (n : Nat) : String := toString n

/-- Conversion `socket.inet_aton` restricted to the dotted-quad strings this
server produces and consumes. -/
def inet_aton (s : String) : Bytes :=
  (pySplit s '.').map (fun p => parseNat p.data)

/-- Conversion `socket.inet_ntoa`: four bytes to a dotted quad. -/
def inet_ntoa (b : Bytes) : String :=
  String.intercalate "." (b.map natStr)

/-- Modelled from the spec: `util.iptoint` (module `util` is not part of the
analysed sources).  Section 4.5 step 5 requires computing "the subnet
broadcast address from the bound interface's netmask and the leased address";
this is the standard dotted-quad-to-32-bit-integer conversion that
computation uses. -/
def iptoint (ip : String) : Nat :=
  match (pySplit ip '.').map (fun p => parseNat p.data) with
  | [a, b, c, d] => ((a * 256 + b) * 256 + c) * 256 + d
  | _ => 0

/-- Modelled from the spec: `util.inttoip`, the inverse conversion used to
render the computed broadcast address. -/
def inttoip (n : Nat) : String :=
  String.intercalate "."
    ([n / 16777216 % 256, n / 65536 % 256, n / 256 % 256, n % 256].map natStr)

/-- Upper-case hexadecimal digit. -/
def hexDig (n : Nat) : Char := "0123456789ABCDEF".data.getD n '0'

/-- Python `'%02X' % b` for a byte. -/
def toHex2 (b : Nat) : String := String.mk [hexDig (b / 16 % 16), hexDig (b % 16)]

/-- Canonical MAC string, `':'.join(['%02X' % ord(x) for x in mac_addr])`. -/
def macStr (bs : Bytes) : String := String.intercalate ":" (bs.map toHex2)

/-- Gateway string, `'.'.join(['%d' % ord(x) for x in gi_addr])`. -/
def giStr (bs : Bytes) : String := String.intercalate "." (bs.map natStr)

/-! ### Protocol constants (`pxed.py` lines 33-161) -/

def BOOTREQUEST : Nat := 1
def BOOTREPLY : Nat := 2

/-- `struct.calcsize('!4bIHH4s4s4s4s16s64s128s4s')`. -/
def DHCPFormatSize : Nat := 240

def DHCP_DISCOVER : Nat := 1
def DHCP_OFFER : Nat := 2
def DHCP_REQUEST : Nat := 3
def DHCP_DECLINE : Nat := 4
def DHCP_ACK : Nat := 5
def DHCP_RELEASE : Nat := 7
def DHCP_INFORM : Nat := 8

def DHCP_IP_MASK : Nat := 1
def DHCP_IP_GATEWAY : Nat := 3
def DHCP_IP_DNS : Nat := 6
def DHCP_LEASE_TIME : Nat := 51
def DHCP_MSG : Nat := 53
def DHCP_SERVER : Nat := 54
def DHCP_END : Nat := 255

def PXE_DISCOVERY_CONTROL : Nat := 6
def PXE_BOOT_SERVERS : Nat := 8
def PXE_BOOT_MENU : Nat := 9
def PXE_MENU_PROMPT : Nat := 10

/-- The key set of the `DHCP_OPTIONS` table (tags 0-61 are all present, 62
and 63 are absent, then 64-74, 77, 93, 94, 97, 175 and 255). -/
def DHCP_OPTIONS_keys : List Nat :=
  [0, 1, 2, 3, 4, 5, 6, 7, 8, 9, 10, 11, 12, 13, 14, 15, 16, 17, 18, 19,
   20, 21, 22, 23, 24, 25, 26, 27, 28, 29, 30, 31, 32, 33, 34, 35, 36, 37,
   38, 39, 40, 41, 42, 43, 44, 45, 46, 47, 48, 49, 50, 51, 52, 53, 54, 55,
   56, 57, 58, 59, 60, 61, 64, 65, 66, 67, 68, 69, 70, 71, 72, 73, 74, 77,
   93, 94, 97, 175, 255]

/-- Membership in the known option table (`DHCP_OPTIONS[tag]` succeeding). -/
def knownTag (t : Nat) : Bool := DHCP_OPTIONS_keys.contains t

/-! ### `BootpServer.parse_options` (`pxed.py` lines 235-256)

The loop body on tag 0 executes `continue` without consuming any input, so
the loop never terminates on a pad byte; falling off the end of the loop
returns Python `None` just like the unknown-tag branch does, but the two are
kept apart here so theorems can talk about which one happened.  A missing
length byte raises `IndexError` and a short value slice makes
`struct.unpack` raise `struct.error`; both escape the server's `handle`. -/

/-- Outcome of `parse_options`. -/
inductive ParseRes where
  /-- Returned the accumulated tag dictionary (hit tag 255). -/
  | ok (tags : List (Nat × Bytes))
  /-- Returned Python `None` from the unknown-tag branch. -/
  | unknown (tag : Nat)
  /-- Fell off the end of the `while` loop, implicitly returning `None`. -/
  | offEnd
  /-- Raised an exception (`IndexError` on a missing length byte or
  `struct.error` on a short value). -/
  | exn
  /-- Looped forever: `continue` on tag 0 never advances `tail`. -/
  | diverge
deriving DecidableEq

/-- Body of the `while tail:` loop of `parse_options`, with `dhcp_tags`
threaded as an accumulator.  The loop consumes at least two bytes per
iteration, so running it with `fuel = tail.length` is exact; fuel is used
only to make the recursion structural (`parseAuxF_congr` shows the result
does not depend on any sufficient fuel). -/
def parseAuxF : Nat → List (Nat × Bytes) → List Nat → ParseRes
  | _, _, [] => .offEnd
  | 0, _, _ :: _ => .exn
  | fuel + 1, acc, t :: rest =>
    if t = 0 then .diverge
    else if t = 255 then .ok acc
    else
      match rest with
      | [] => .exn
      | l :: rest2 =>
        if rest2.length < l then .exn
        else if knownTag t then parseAuxF fuel (dset acc t (rest2.take l)) (rest2.drop l)
        else .unknown t

/-- The `while tail:` loop with accumulator `acc`. -/
def parseA (acc : List (Nat × Bytes)) (tail : List Nat) : ParseRes :=
  parseAuxF tail.length acc tail

/-- `BootpServer.parse_options` on the option tail. -/
def parse_options (tail : List Nat) : ParseRes := parseA [] tail

theorem parseAuxF_congr (f : Nat) : ∀ (g : Nat) (acc : List (Nat × Bytes))
    (tail : List Nat), tail.length ≤ f → tail.length ≤ g →
    parseAuxF f acc tail = parseAuxF g acc tail := by
  induction f with
  | zero =>
    intro g acc tail hf _
    have htail : tail = [] := List.eq_nil_of_length_eq_zero (Nat.le_zero.mp hf)
    subst htail
    cases g <;> rfl
  | succ f ih =>
    intro g acc tail hf hg
    match tail with
    | [] => cases g <;> rfl
    | t :: rest =>
      cases g with
      | zero => simp at hg
      | succ g =>
        simp only [parseAuxF]
        by_cases h0 : t = 0
        · simp [h0]
        by_cases h255 : t = 255
        · simp [h0, h255]
        match rest with
        | [] => simp [h0, h255]
        | l :: rest2 =>
          by_cases hlen : rest2.length < l
          · simp [h0, h255, hlen]
          by_cases hk : knownTag t
          · simp only [h0, h255, hlen, hk, if_false, if_true, ite_false, ite_true]
            have hf2 : (rest2.drop l).length ≤ f := by
              simp only [List.length_cons, List.length_drop] at hf ⊢
              omega
            have hg2 : (rest2.drop l).length ≤ g := by
              simp only [List.length_cons, List.length_drop] at hg ⊢
              omega
            exact ih g _ _ hf2 hg2
          · simp [h0, h255, hlen, hk]

theorem parseA_pad (acc : List (Nat × Bytes)) (rest : List Nat) :
    parseA acc (0 :: rest) = .diverge := by
  simp [parseA, parseAuxF]

theorem parseA_end (acc : List (Nat × Bytes)) (rest : List Nat) :
    parseA acc (255 :: rest) = .ok acc := by
  simp [parseA, parseAuxF]

theorem parseA_step (acc : List (Nat × Bytes)) (t l : Nat) (rest2 : List Nat)
    (h0 : t ≠ 0) (h255 : t ≠ 255) (hlen : l ≤ rest2.length)
    (hk : knownTag t = true) :
    parseA acc (t :: l :: rest2) =
      parseA (dset acc t (rest2.take l)) (rest2.drop l) := by
  simp only [parseA, List.length_cons, parseAuxF, h0, h255,
    Nat.not_lt.mpr hlen, if_false, ite_false, ite_true, hk, if_true]
  exact parseAuxF_congr _ _ _ _ (by simp only [List.length_drop]; omega) (Nat.le_refl _)

theorem parseA_short (acc : List (Nat × Bytes)) (t : Nat)
    (h0 : t ≠ 0) (h255 : t ≠ 255) : parseA acc [t] = .exn := by
  simp [parseA, parseAuxF, h0, h255]

theorem parseA_badlen (acc : List (Nat × Bytes)) (t l : Nat) (rest2 : List Nat)
    (h0 : t ≠ 0) (h255 : t ≠ 255) (hlen : rest2.length < l) :
    parseA acc (t :: l :: rest2) = .exn := by
  simp [parseA, parseAuxF, h0, h255, hlen]

theorem parseA_unknown (acc : List (Nat × Bytes)) (t l : Nat) (rest2 : List Nat)
    (h0 : t ≠ 0) (h255 : t ≠ 255) (hlen : l ≤ rest2.length)
    (hk : knownTag t = false) :
    parseA acc (t :: l :: rest2) = .unknown t := by
  simp [parseA, parseAuxF, h0, h255, Nat.not_lt.mpr hlen, hk]

/-! ### The session state machine (`pxed.py` lines 174 and 340-355) -/

def ST_IDLE : Nat := 0
def ST_PXE : Nat := 1
def ST_DHCP : Nat := 2

/-- The `newstate` computation of `BootpServer.handle` (lines 342-355):
`newstate` starts as `currentstate` and is conditionally reassigned. -/
def nextStateOf (currentstate : Nat) (pxe : Bool) (dhcp_msg_type : Option Nat) : Nat :=
  if currentstate = ST_IDLE then
    if pxe && (dhcp_msg_type == some DHCP_DISCOVER) then ST_PXE else currentstate
  else if currentstate = ST_PXE then
    if !pxe && (dhcp_msg_type == some DHCP_REQUEST) then ST_DHCP else currentstate
  else
    if pxe then ST_PXE else currentstate

/-- The phase the handler observes for a MAC:
`self.states.setdefault(mac_str, self.ST_IDLE)`. -/
def phaseOf (states : List (String × Nat)) (mac : String) : Nat :=
  (dget states mac).getD ST_IDLE

/-! ### Wire codec: the fixed record `'!4bIHH4s4s4s4s16s64s128s4s'` -/

/-- The fixed-layout record `struct.unpack(DHCPFormat, ...)` produces,
indexed in the source by `BOOTP_OP .. BOOTP_VEND`. -/
structure Fields where
  op : Nat
  htype : Nat
  hlen : Nat
  hops : Nat
  xid : Nat
  secs : Nat
  flags : Nat
  ciaddr : Bytes
  yiaddr : Bytes
  siaddr : Bytes
  giaddr : Bytes
  chaddr : Bytes
  sname : Bytes
  file : Bytes
  vend : Bytes
deriving DecidableEq

/-- Big-endian value of a byte list. -/
def beVal (bs : Bytes) : Nat := bs.foldl (fun a b => a * 256 + b) 0

/-- Byte slice `data[i:i+n]`. -/
def slice (data : Bytes) (i n : Nat) : Bytes := (data.drop i).take n

/-- Format `'b'`: a signed byte. -/
def sbyte (b : Nat) : Int := if b < 128 then (b : Int) else (b : Int) - 256

/-- Big-endian packing of a 16-bit value (`'H'`). -/
def be16 (n : Nat) : Bytes := [n / 256 % 256, n % 256]

/-- Big-endian packing of a 32-bit value (`'I'`). -/
def be32 (n : Nat) : Bytes :=
  [n / 16777216 % 256, n / 65536 % 256, n / 256 % 256, n % 256]

/-- Format `'ns'`: truncate or NUL-pad to exactly `n` bytes. -/
def pad (n : Nat) (bs : Bytes) : Bytes :=
  bs.take n ++ List.replicate (n - bs.length) 0

/-- `struct.unpack(DHCPFormat, data[:DHCPFormatSize])` as field slices. -/
def unpackDHCP (data : Bytes) : Fields :=
  { op := data.getD 0 0
    htype := data.getD 1 0
    hlen := data.getD 2 0
    hops := data.getD 3 0
    xid := beVal (slice data 4 4)
    secs := beVal (slice data 8 2)
    flags := beVal (slice data 10 2)
    ciaddr := slice data 12 4
    yiaddr := slice data 16 4
    siaddr := slice data 20 4
    giaddr := slice data 24 4
    chaddr := slice data 28 16
    sname := slice data 44 64
    file := slice data 108 128
    vend := slice data 236 4 }

/-- `struct.pack(DHCPFormat, *buf)` for the reply. -/
def packDHCP (f : Fields) : Bytes :=
  [f.op % 256, f.htype % 256, f.hlen % 256, f.hops % 256] ++ be32 f.xid ++
  be16 f.secs ++ be16 f.flags ++ pad 4 f.ciaddr ++ pad 4 f.yiaddr ++
  pad 4 f.siaddr ++ pad 4 f.giaddr ++ pad 16 f.chaddr ++ pad 64 f.sname ++
  pad 128 f.file ++ pad 4 f.vend

/-! ### Configuration and external collaborators -/

/-- One entry of the YAML `bootp_leases` section: the keys
`get_host_data_for_mac` reads, each possibly absent. -/
structure Lease where
  hostname : Option String
  boot_file : Option String
deriving DecidableEq

/-- Configuration values and external collaborators of the handler.  These
model, in order: `netconfig['address']` and `netconfig['mask']` from
`util.get_iface_config`; the `PyBootdConfig` getters
(`get_bootp_allow_simple_dhcp`, `get_bootp_default_boot_file`,
`get_bootp_default_dns`, `get_bootp_default_lease_time`, the `bootp_leases`
section); `util.to_bool` (the `util` module is not among the analysed
sources, so the predicate is kept abstract); `get_dns_server` (the external
`/etc/resolv.conf` scan); `socket.gethostbyname` (`none` models a raised
resolution error); and whether `sock.sendto` succeeds or raises. -/
structure Env where
  address : String
  mask : String
  allow_simple_dhcp : Option String
  to_bool : String → Bool
  default_boot_file : String
  default_dns : Option String
  dns_lookup : Option String
  default_lease_time : Nat
  leases : List (String × Lease)
  resolve : String → Option String
  send_ok : Bool

/-- Lines 360-361: `sdhcp = self.config.get_bootp_allow_simple_dhcp();
simple_dhcp = sdhcp and to_bool(sdhcp)`.  An absent key or an empty string
is falsy before `to_bool` is even consulted. -/
def simpleDhcp (env : Env) : Bool :=
  match env.allow_simple_dhcp with
  | none => false
  | some s => if s = "" then false else env.to_bool s

/-! ### Host data lookup (`get_host_data_for_mac`, lines 513-537) -/

/-- The `hostdata` dict built at lines 529-533. -/
structure HostData where
  address : String
  hostname : String
  domain : String
  boot_file : String
deriving DecidableEq

/-- Outcome of `get_host_data_for_mac`: a host record, Python `None`, or an
escaped exception. -/
inductive HostDataRes where
  | ok (hd : HostData)
  | pyNone
  | err
deriving DecidableEq

/-- `PyBootdConfig.get_lease_for_mac` (`pybootdconfig.py` lines 165-169). -/
def get_lease_for_mac (env : Env) (mac : String) : Option Lease :=
  if mac = "" then none else dget env.leases mac

/-- `BootpServer.get_host_data_for_mac`.  With no configured lease,
`'hostname' in None` raises `TypeError`; a lease with no `boot_file` key
raises `KeyError` at line 533; neither is the `IOError` the function
catches, so both escape (`err`).  A missing or empty hostname, or a failed
resolution, returns Python `None`.  The second component counts
`socket.gethostbyname` calls. -/
def get_host_data_for_mac (env : Env) (mac_str : String) : HostDataRes × Nat :=
  match get_lease_for_mac env mac_str with
  | none => (.err, 0)
  | some lease =>
    match lease.hostname with
    | none => (.pyNone, 0)
    | some hostname =>
      if hostname = "" then (.pyNone, 0)
      else
        match env.resolve hostname with
        | none => (.pyNone, 1)
        | some ipaddr =>
          match lease.boot_file with
          | none => (.err, 1)
          | some bf =>
            (.ok { address := ipaddr
                   hostname := hostname
                   domain := String.intercalate "."
                     ((pySplit (pyStrip hostname) '.').drop 1)
                   boot_file := bf }, 1)

/-! ### Option builders (lines 258-292) -/

/-- First index of a byte in a byte string (Python `str.find` without the
`-1` convention). -/
def findIdx (b : Nat) : List Nat → Option Nat
  | [] => none
  | x :: xs => if x = b then some 0 else (findIdx b xs).map (fun i => i + 1)

/-- Line 265: `clientclass[:clientclass.find(':')]`.  Python `find` returns
the first index of `':'` (byte 58) or `-1`, and slicing to `-1` drops the
last byte. -/
def pyTruncColon (cc : Bytes) : Bytes :=
  match findIdx 58 cc with
  | some i => cc.take i
  | none => cc.take (cc.length - 1)

/-- Outcome of `build_pxe_options`: the packed option bytes, Python `None`
after a caught `KeyError`, or an uncaught `struct.error` from packing a
value longer than a length byte allows. -/
inductive BuildRes where
  | ok (buf : Bytes)
  | keyErr
  | packErr
deriving DecidableEq

/-- The vendor-specific sub-option block assembled at lines 268-277:
discovery control 0x0A, one generic boot server (`server`, 4 bytes), the
boot menu "Python", and the menu prompt "Stupid PXE". -/
def pxeVendor (server : Bytes) : Bytes :=
  [PXE_DISCOVERY_CONTROL, 1, 10] ++
  ([PXE_BOOT_SERVERS, 2 + 1 + 4] ++ be16 0 ++ [1] ++ pad 4 server) ++
  ([PXE_BOOT_MENU, 2 + 1 + 6] ++ be16 0 ++ [6] ++ strBytes "Python") ++
  ([PXE_MENU_PROMPT, 1 + 10, 10] ++ strBytes "Stupid PXE")

/-- `BootpServer.build_pxe_options`. -/
def build_pxe_options (options : List (Nat × Bytes)) (server : Bytes) : BuildRes :=
  match dget options 97 with
  | none => .keyErr
  | some uuid =>
    if 255 < uuid.length then .packErr
    else
      match dget options 60 with
      | none => .keyErr
      | some cc =>
        let clientclass := pyTruncColon cc
        if 255 < clientclass.length then .packErr
        else
          let vendor : Bytes := pxeVendor server
          .ok ([97, uuid.length] ++ uuid ++
               [60, clientclass.length] ++ clientclass ++
               [43, vendor.length] ++ vendor ++ [255, 0, 0])

/-- `BootpServer.build_dhcp_options`. -/
def build_dhcp_options (clientname : String) : Bytes :=
  if clientname = "" then []
  else [12, (strBytes clientname).length] ++ strBytes clientname

/-! ### The request handler (`BootpServer.handle`, lines 294-490)

The handler is split here into the same stages the source runs through:
header checks and option parsing (`handle`), message-type extraction, PXE
classification and the state machine with its idle-drop policy
(`handleOpts`), address resolution (`buildReply`, using `allocate` for
lines 370-389), and reply construction, UUID-cache update, transmission and
state commit (`finishReply`). -/

/-- Mutable per-process pools owned by `BootpServer`: `uuidpool` keyed by
the raw 6-byte MAC, `ippool` and `states` keyed by the canonical MAC
string. -/
structure ServerState where
  uuidpool : List (Bytes × Bytes)
  ippool : List (String × String)
  states : List (String × Nat)
deriving DecidableEq

/-- Observable outcome of one `handle` call: a datagram sent to a
destination, a clean `return` with no reply, an exception escaping to the
`forever` loop, or the non-terminating option-parse loop. -/
inductive HOut where
  | sent (pkt : Bytes) (dest : String × Nat)
  | noReply
  | exn
  | diverge
deriving DecidableEq

/-- Result of one `handle` call: outcome, the pools afterwards, and how many
external resolution calls were made. -/
structure HandleOut where
  out : HOut
  st : ServerState
  resolveCalls : Nat
deriving DecidableEq

/-- Lines 310-313: `dhcp_msg_type = ord(options[53][0])`, with `KeyError`
caught (giving `None`) but `IndexError` on an empty option value
escaping. -/
inductive MsgTypeRes where
  | err
  | val (m : Option Nat)
deriving DecidableEq

def dhcpMsgTypeOf (options : List (Nat × Bytes)) : MsgTypeRes :=
  match dget options 53 with
  | none => .val none
  | some [] => .err
  | some (b :: _) => .val (some b)

/-- Lines 321-330: PXE mode iff option 97 is present with length 17, in
which case the UUID is its tail (after the 1-byte type prefix). -/
def pxeUuid (options : List (Nat × Bytes)) : Option Bytes :=
  match dget options 97 with
  | some v => if v.length = 17 then some (v.drop 1) else none
  | none => none

/-- Outcome of the address-resolution block at lines 370-389. -/
inductive AllocRes where
  | err
  | drop
  | ok (ip : String) (host_data : HostData)
deriving DecidableEq

/-- Lines 370-389: fetch host data — which resolves the lease hostname
externally on every call — then reuse the recorded lease or record the
freshly resolved address.  Returns the outcome, the updated `ippool`, and
the number of resolution calls.  `err` models the `TypeError` of
`host_data['address']` when `get_host_data_for_mac` returned `None`. -/
def allocate (env : Env) (ippool : List (String × String)) (mac_str : String) :
    AllocRes × List (String × String) × Nat :=
  match get_host_data_for_mac env mac_str with
  | (.err, rc) => (.err, ippool, rc)
  | (.pyNone, rc) => (.err, ippool, rc)
  | (.ok host_data, rc) =>
    let ipaddr := host_data.address
    if ipaddr = "" then (.drop, ippool, rc)
    else
      let hit := dget ippool mac_str
      let ip := match hit with
        | some ip0 => ip0
        | none => ipaddr
      let ippool2 := match hit with
        | some _ => ippool
        | none => dset ippool mac_str ipaddr
      if ip = "" then (.drop, ippool2, rc)
      else (.ok ip host_data, ippool2, rc)

/-- Lines 439-465: the standard reply option stream appended to the packed
fixed record — message type, hardcoded server id / netmask / gateway,
optional DNS, lease time, end tag.  The `server` value it embeds equals the
`socket.inet_aton('10.40.13.161')` bound once at line 449. -/
def stdReplyPkt (env : Env) (buf : Fields) (dhcp_reply : Nat) : Bytes :=
  let pkt := packDHCP buf ++ [DHCP_MSG, 1, dhcp_reply]
  let server := inet_aton "10.40.13.161"   -- hardcoded relay (source FIXME)
  let pkt := pkt ++ [DHCP_SERVER, 4] ++ server
  let mask := inet_aton "255.255.255.224"  -- hardcoded netmask (source FIXME)
  let pkt := pkt ++ [DHCP_IP_MASK, 4] ++ mask
  let pkt := pkt ++ [DHCP_IP_GATEWAY, 4] ++ server
  let pkt :=
    match env.default_dns with
    | none => pkt
    | some dns0 =>
      if dns0 = "" then pkt
      else
        let dns1 :=
          if pyLower dns0 = "auto" then
            match env.dns_lookup with
            | some d => if d = "" then inet_ntoa server else d
            | none => inet_ntoa server
          else dns0
        pkt ++ [DHCP_IP_DNS, 4] ++ inet_aton dns1
  let pkt := pkt ++ [DHCP_LEASE_TIME, 4] ++ be32 env.default_lease_time
  pkt ++ [DHCP_END, 0]

/-- Lines 467-490: build the extra option block (PXE vendor options or the
plain hostname option), update the UUID cache, transmit, and commit the
state change. -/
def transmitReply (env : Env) (st : ServerState) (addr : String × Nat)
    (options : List (Nat × Bytes)) (mac_addr : Bytes) (mac_str : String)
    (gi_addr : Bytes) (gi_str : String) (pxe : Bool) (uuid : Option Bytes)
    (currentstate newstate : Nat) (rc : Nat) (pkt : Bytes) : HandleOut :=
  let hostname := ""   -- line 337; never reassigned before its use at line 474
  let extraRes : BuildRes :=
    if pxe then build_pxe_options options (inet_aton "10.40.13.161")
    else .ok (build_dhcp_options hostname)
  match extraRes with
  | .packErr => ⟨.exn, st, rc⟩
  | .keyErr => ⟨.noReply, st, rc⟩   -- `if not extra_buf: return`
  | .ok extra_buf =>
    if pxe ∧ extra_buf = [] then ⟨.noReply, st, rc⟩
    else
      -- lines 477-478: the UUID cache is updated BEFORE the send
      let st := if pxe then
          ⟨dset st.uuidpool mac_addr (uuid.getD []), st.ippool, st.states⟩
        else st
      let dest := if gi_addr ≠ [] then (gi_str, 67) else addr
      if env.send_ok then
        -- lines 487-490: commit the state change after a successful send
        let st := if currentstate ≠ newstate then
            ⟨st.uuidpool, st.ippool, dset st.states mac_str newstate⟩
          else st
        ⟨.sent (pkt ++ extra_buf) dest, st, rc⟩
      else ⟨.exn, st, rc⟩

/-- Lines 402-410: the remaining fixed-field assignments of the reply —
server address, echoed gateway (under the always-truthy `if gi_addr:`),
server name from the host data, and the boot file (the lease's, or the
configured default when empty). -/
def replyFields (env : Env) (buf : Fields) (gi_addr : Bytes) (gi_str : String)
    (host_data : HostData) : Fields :=
  let buf := { buf with siaddr := inet_aton env.address }
  let buf := if gi_addr ≠ [] then { buf with giaddr := inet_aton gi_str } else buf
  let buf := { buf with
    sname := strBytes (host_data.hostname ++ "." ++ host_data.domain) }
  { buf with
    file := strBytes (if host_data.boot_file ≠ "" then host_data.boot_file
                      else env.default_boot_file) }

/-- Lines 402-490: remaining fixed fields, reply-type dispatch, then the
transmission stage.  `host_data?` is `none` when the non-zero-`ciaddr`
branch was taken, in which case the local variable `host_data` was never
assigned and the server-name assignment at line 407 raises
`UnboundLocalError` (before the message-type dispatch at line 412). -/
def finishReply (env : Env) (st : ServerState) (addr : String × Nat)
    (buf : Fields) (options : List (Nat × Bytes)) (dhcp_msg_type : Option Nat)
    (mac_addr : Bytes) (mac_str : String) (gi_addr : Bytes) (gi_str : String)
    (pxe : Bool) (uuid : Option Bytes) (currentstate newstate : Nat)
    (host_data? : Option HostData) (rc : Nat) : HandleOut :=
  match host_data? with
  | none => ⟨.exn, st, rc⟩
  | some host_data =>
    -- line 412: `if not dhcp_msg_type` — both `None` and `0` are falsy
    match dhcp_msg_type with
    | none => ⟨.noReply, st, rc⟩
    | some mt =>
      if mt = 0 then ⟨.noReply, st, rc⟩
      else if mt = DHCP_DISCOVER then
        transmitReply env st addr options mac_addr mac_str gi_addr gi_str pxe
          uuid currentstate newstate rc
          (stdReplyPkt env (replyFields env buf gi_addr gi_str host_data) DHCP_OFFER)
      else if mt = DHCP_REQUEST then
        transmitReply env st addr options mac_addr mac_str gi_addr gi_str pxe
          uuid currentstate newstate rc
          (stdReplyPkt env (replyFields env buf gi_addr gi_str host_data) DHCP_ACK)
      else if mt = DHCP_RELEASE then ⟨.exn, st, rc⟩
        -- `self.notify` is never defined anywhere: AttributeError escapes
      else if mt = DHCP_INFORM then ⟨.noReply, st, rc⟩
      else if mt = DHCP_DECLINE then ⟨.noReply, st, rc⟩
      else ⟨.noReply, st, rc⟩   -- unmanaged DHCP message, logged and dropped

/-- Lines 365-401: flip the op to `BOOTREPLY`, then resolve the offered
address.  An all-zero client address goes through `allocate` and redirects
the provisional destination to the computed subnet broadcast; otherwise the
client address is echoed and `host_data` stays unassigned. -/
def buildReply (env : Env) (st : ServerState) (addr : String × Nat)
    (buf : Fields) (options : List (Nat × Bytes)) (dhcp_msg_type : Option Nat)
    (mac_addr : Bytes) (mac_str : String) (gi_addr : Bytes) (gi_str : String)
    (pxe : Bool) (uuid : Option Bytes) (currentstate newstate : Nat) : HandleOut :=
  let buf := { buf with op := BOOTREPLY }
  if buf.ciaddr = [0, 0, 0, 0] then
    match allocate env st.ippool mac_str with
    | (.err, ippool2, rc) => ⟨.exn, ⟨st.uuidpool, ippool2, st.states⟩, rc⟩
    | (.drop, ippool2, rc) => ⟨.noReply, ⟨st.uuidpool, ippool2, st.states⟩, rc⟩
    | (.ok ip host_data, ippool2, rc) =>
      let st := ⟨st.uuidpool, ippool2, st.states⟩
      let mask := iptoint env.mask
      -- line 393: `(~mask) & ((1<<32)-1)` is the 32-bit complement of mask
      let reply_broadcast := (iptoint ip &&& mask) ||| (4294967295 - mask)
      let buf := { buf with yiaddr := inet_aton ip, secs := 0, flags := 0 }
      let addr := (inttoip reply_broadcast, addr.2)
      finishReply env st addr buf options dhcp_msg_type mac_addr mac_str
        gi_addr gi_str pxe uuid currentstate newstate (some host_data) rc
  else
    let buf := { buf with yiaddr := buf.ciaddr }
    finishReply env st addr buf options dhcp_msg_type mac_addr mac_str
      gi_addr gi_str pxe uuid currentstate newstate none 0

/-- Lines 309-363: message type, PXE classification, UUID, state machine,
and the idle-drop policy. -/
def handleOpts (env : Env) (st : ServerState) (addr : String × Nat)
    (buf : Fields) (options : List (Nat × Bytes)) : HandleOut :=
  match dhcpMsgTypeOf options with
  | .err => ⟨.exn, st, 0⟩
  | .val dhcp_msg_type =>
    let mac_addr := buf.chaddr.take 6
    let gi_addr := buf.giaddr.take 4
    let mac_str := macStr mac_addr
    let gi_str := giStr gi_addr
    let pxe := (pxeUuid options).isSome
    let uuid : Option Bytes :=
      match pxeUuid options with
      | some u => some u
      | none => dget st.uuidpool mac_addr
    let currentstate := phaseOf st.states mac_str
    let st := ⟨st.uuidpool, st.ippool, dsetdefault st.states mac_str ST_IDLE⟩
    let newstate := nextStateOf currentstate pxe dhcp_msg_type
    if newstate = ST_IDLE ∧ simpleDhcp env = false then ⟨.noReply, st, 0⟩
    else
      buildReply env st addr buf options dhcp_msg_type mac_addr mac_str
        gi_addr gi_str pxe uuid currentstate newstate

/-- `BootpServer.handle`.  The undersized-datagram check at lines 297-298
only logs; `struct.unpack` at line 300 then raises `struct.error`, which
escapes to the `forever` loop. -/
def handle (env : Env) (st : ServerState) (addr : String × Nat) (data : Bytes) :
    HandleOut :=
  if data.length < DHCPFormatSize then ⟨.exn, st, 0⟩
  else
    let tail := data.drop DHCPFormatSize
    let buf := unpackDHCP data
    if sbyte buf.op ≠ (BOOTREQUEST : Int) then ⟨.noReply, st, 0⟩
    else
      match parse_options tail with
      | .ok options => handleOpts env st addr buf options
      | .unknown _ => ⟨.noReply, st, 0⟩
      | .offEnd => ⟨.noReply, st, 0⟩
      | .exn => ⟨.exn, st, 0⟩
      | .diverge => ⟨.diverge, st, 0⟩

/-- Whether an outcome transmitted a datagram. -/
def isSent : HOut → Bool
  | .sent _ _ => true
  | _ => false

/-- Destination of a transmitted datagram, if any. -/
def sentDest : HOut → Option (String × Nat)
  | .sent _ d => some d
  | _ => none

/-! ### Dictionary lemmas -/

theorem dget_dset {α β : Type} [DecidableEq α] (d : List (α × β)) (k j : α) (v : β) :
    dget (dset d k v) j = if j = k then some v else dget d j := by
  induction d with
  | nil => simp [dset, dget]
  | cons kv rest ih =>
    obtain ⟨k', v'⟩ := kv
    by_cases hk : k = k'
    · subst hk
      by_cases hj : j = k <;> simp [dset, dget, hj]
    · by_cases hj : j = k'
      · subst hj
        simp [dset, dget, hk, Ne.symm hk]
      · simp [dset, dget, hk, hj, ih]

theorem dget_append {α β : Type} [DecidableEq α] (d e : List (α × β)) (j : α) :
    dget (d ++ e) j = ((dget d j).rec (dget e j) (fun v => some v) : Option β) := by
  induction d with
  | nil => simp [dget]
  | cons kv rest ih =>
    obtain ⟨k', v'⟩ := kv
    by_cases hj : j = k' <;> simp [dget, hj, ih]

theorem phaseOf_dsetdefault (states : List (String × Nat)) (k j : String) :
    phaseOf (dsetdefault states k ST_IDLE) j = phaseOf states j := by
  unfold phaseOf dsetdefault
  cases hk : dget states k with
  | some v => rfl
  | none =>
    rw [dget_append]
    cases hj : dget states j with
    | some v => rfl
    | none =>
      by_cases hjk : j = k <;> simp [dget, hjk]

theorem dget_foldl_dset {α β : Type} [DecidableEq α] (ts : List (α × β)) :
    ∀ (acc : List (α × β)) (k : α),
      ((dget (ts.foldl (fun m kv => dset m kv.1 kv.2) acc) k).isSome = true ↔
        k ∈ ts.map Prod.fst ∨ (dget acc k).isSome = true) := by
  induction ts with
  | nil => simp
  | cons kv rest ih =>
    intro acc k
    simp only [List.foldl_cons, List.map_cons, List.mem_cons]
    rw [ih]
    rw [dget_dset]
    by_cases hk : k = kv.1 <;> simp [hk]

/-! ### Well-formed option streams -/

/-- Serialisation of (tag, value) triples into TLV bytes: the well-formed
option streams the spec's properties quantify over. -/
def encodeTriples : List (Nat × Bytes) → List Nat
  | [] => []
  | (t, v) :: rest => t :: v.length :: (v ++ encodeTriples rest)

/-- Tags that may occur in a parseable stream: not the pad byte, not the
terminator, and present in the known option table. -/
def goodTags (ts : List (Nat × Bytes)) : Bool :=
  ts.all (fun kv => (kv.1 != 0) && (kv.1 != 255) && knownTag kv.1)

theorem parseA_encodeTriples (ts : List (Nat × Bytes)) :
    ∀ (acc : List (Nat × Bytes)) (s : List Nat), goodTags ts = true →
      parseA acc (encodeTriples ts ++ s) =
        parseA (ts.foldl (fun m kv => dset m kv.1 kv.2) acc) s := by
  induction ts with
  | nil => intro acc s _; rfl
  | cons kv rest ih =>
    intro acc s h
    obtain ⟨t, v⟩ := kv
    simp only [goodTags, List.all_cons, Bool.and_eq_true, bne_iff_ne, ne_eq] at h
    obtain ⟨⟨⟨h0, h255⟩, hk⟩, hrest⟩ := h
    have hsh : encodeTriples ((t, v) :: rest) ++ s =
        t :: v.length :: (v ++ (encodeTriples rest ++ s)) := by
      simp [encodeTriples]
    rw [hsh, parseA_step acc t v.length (v ++ (encodeTriples rest ++ s)) h0 h255
      (by simp) hk]
    rw [List.take_left, List.drop_left]
    rw [ih _ _ (by simpa [goodTags] using hrest)]
    rfl

/-! ### Concrete fixtures used by the per-claim evaluations -/

/-- A configured lease for the test MAC. -/
def lease0 : Lease := ⟨some "host1.example.net", some "pxelinux.0"⟩

/-- A baseline environment: bound interface 192.168.1.1/24, no
`allow_simple_dhcp` key, one configured lease whose hostname resolves to
192.168.1.50, and a working socket. -/
def env0 : Env :=
  { address := "192.168.1.1"
    mask := "255.255.255.0"
    allow_simple_dhcp := none
    to_bool := fun s => s == "yes"
    default_boot_file := "default.0"
    default_dns := some "auto"
    dns_lookup := some "192.168.1.53"
    default_lease_time := 7200
    leases := [("00:01:02:03:04:05", lease0)]
    resolve := fun h => if h == "host1.example.net" then some "192.168.1.50" else none
    send_ok := true }

/-- Environment with the `allow_simple_dhcp` flag set to a truthy value. -/
def envSimple : Env := { env0 with allow_simple_dhcp := some "yes" }

/-- Environment whose `sendto` raises. -/
def envNoSend : Env := { env0 with send_ok := false }

/-- A 240-byte fixed record (op, htype 1, hlen 6, xid 0x1234, magic cookie)
with the given client address, relay gateway, MAC, and option tail. -/
def mkData (op : Nat) (ciaddr giaddr chaddr : Bytes) (opts : Bytes) : Bytes :=
  [op, 1, 6, 0] ++ be32 4660 ++ be16 0 ++ be16 0 ++ pad 4 ciaddr ++
  pad 4 [] ++ pad 4 [] ++ pad 4 giaddr ++ pad 16 chaddr ++
  List.replicate 64 0 ++ List.replicate 128 0 ++ [99, 130, 83, 99] ++ opts

/-- The test client's MAC, canonically "00:01:02:03:04:05". -/
def chaddr0 : Bytes := [0, 1, 2, 3, 4, 5]

/-- A 17-byte option-97 value: type byte then 16 UUID bytes. -/
def uuid17 : Bytes := 0 :: List.range 16

/-- A typical PXE class id (contains colons). -/
def ccPXE : Bytes := strBytes "PXEClient:Arch:00000:UNDI:002001"

/-- Empty pools. -/
def st0 : ServerState := ⟨[], [], []⟩

/-- The sender address `recvfrom` reported. -/
def sender0 : String × Nat := ("10.0.0.9", 68)

/-- A PXE discover: zero ciaddr, zero giaddr, options 53/97/60. -/
def dataPxeDiscover : Bytes :=
  mkData 1 [] [] chaddr0
    ([53, 1, 1] ++ [97, 17] ++ uuid17 ++ [60, 32] ++ ccPXE ++ [255])

/-- A plain (non-PXE) DHCP discover. -/
def dataPlainDiscover : Bytes := mkData 1 [] [] chaddr0 [53, 1, 1, 255]

/-- A full-size record whose op field is BOOTREPLY, not BOOTREQUEST. -/
def dataNotRequest : Bytes := mkData 2 [] [] chaddr0 [53, 1, 1, 255]

/-- A non-PXE DHCP request whose client address field is already set. -/
def dataCiaddrRequest : Bytes := mkData 1 [192, 168, 1, 7] [] chaddr0 [53, 1, 3, 255]

/-- A PXE discover carrying option 97 but no option 60. -/
def dataPxeNo60 : Bytes :=
  mkData 1 [] [] chaddr0 ([53, 1, 1] ++ [97, 17] ++ uuid17 ++ [255])

/-- Pools in which the test MAC is already in the PXE phase. -/
def stPxe : ServerState := ⟨[], [], [("00:01:02:03:04:05", ST_PXE)]⟩

/-- Payload of a transmitted datagram, if any. -/
def sentPkt : HOut → Option Bytes
  | .sent p _ => some p
  | _ => none

/-! ### Stability of the pools across non-sending outcomes -/

theorem transmitReply_states_cases (env : Env) (st : ServerState)
    (addr : String × Nat) (options : List (Nat × Bytes)) (mac_addr : Bytes)
    (mac_str : String) (gi_addr : Bytes) (gi_str : String) (pxe : Bool)
    (uuid : Option Bytes) (currentstate newstate rc : Nat) (pkt : Bytes) :
    (transmitReply env st addr options mac_addr mac_str gi_addr gi_str pxe uuid
        currentstate newstate rc pkt).st.states = st.states ∨
    isSent (transmitReply env st addr options mac_addr mac_str gi_addr gi_str pxe
        uuid currentstate newstate rc pkt).out = true := by
  unfold transmitReply
  dsimp only
  split
  all_goals try exact .inl rfl
  split_ifs <;> simp [isSent]

theorem transmitReply_uuid_cases (env : Env) (st : ServerState)
    (addr : String × Nat) (options : List (Nat × Bytes)) (mac_addr : Bytes)
    (mac_str : String) (gi_addr : Bytes) (gi_str : String) (pxe : Bool)
    (uuid : Option Bytes) (currentstate newstate rc : Nat) (pkt : Bytes) :
    (transmitReply env st addr options mac_addr mac_str gi_addr gi_str pxe uuid
        currentstate newstate rc pkt).st.uuidpool = st.uuidpool ∨
    (transmitReply env st addr options mac_addr mac_str gi_addr gi_str pxe uuid
        currentstate newstate rc pkt).out ≠ .noReply := by
  unfold transmitReply
  dsimp only
  split
  all_goals try exact .inl rfl
  split_ifs <;> simp

theorem finishReply_states_cases (env : Env) (st : ServerState)
    (addr : String × Nat) (buf : Fields) (options : List (Nat × Bytes))
    (dhcp_msg_type : Option Nat) (mac_addr : Bytes) (mac_str : String)
    (gi_addr : Bytes) (gi_str : String) (pxe : Bool) (uuid : Option Bytes)
    (currentstate newstate : Nat) (host_data? : Option HostData) (rc : Nat) :
    (finishReply env st addr buf options dhcp_msg_type mac_addr mac_str gi_addr
        gi_str pxe uuid currentstate newstate host_data? rc).st.states =
      st.states ∨
    isSent (finishReply env st addr buf options dhcp_msg_type mac_addr mac_str
        gi_addr gi_str pxe uuid currentstate newstate host_data? rc).out = true := by
  unfold finishReply
  repeat' split
  all_goals first
    | (left; rfl)
    | exact transmitReply_states_cases _ _ _ _ _ _ _ _ _ _ _ _ _ _

theorem finishReply_uuid_cases (env : Env) (st : ServerState)
    (addr : String × Nat) (buf : Fields) (options : List (Nat × Bytes))
    (dhcp_msg_type : Option Nat) (mac_addr : Bytes) (mac_str : String)
    (gi_addr : Bytes) (gi_str : String) (pxe : Bool) (uuid : Option Bytes)
    (currentstate newstate : Nat) (host_data? : Option HostData) (rc : Nat) :
    (finishReply env st addr buf options dhcp_msg_type mac_addr mac_str gi_addr
        gi_str pxe uuid currentstate newstate host_data? rc).st.uuidpool =
      st.uuidpool ∨
    (finishReply env st addr buf options dhcp_msg_type mac_addr mac_str gi_addr
        gi_str pxe uuid currentstate newstate host_data? rc).out ≠ .noReply := by
  unfold finishReply
  repeat' split
  all_goals first
    | (left; rfl)
    | exact transmitReply_uuid_cases _ _ _ _ _ _ _ _ _ _ _ _ _ _

theorem buildReply_states_cases (env : Env) (st : ServerState)
    (addr : String × Nat) (buf : Fields) (options : List (Nat × Bytes))
    (dhcp_msg_type : Option Nat) (mac_addr : Bytes) (mac_str : String)
    (gi_addr : Bytes) (gi_str : String) (pxe : Bool) (uuid : Option Bytes)
    (currentstate newstate : Nat) :
    (buildReply env st addr buf options dhcp_msg_type mac_addr mac_str gi_addr
        gi_str pxe uuid currentstate newstate).st.states = st.states ∨
    isSent (buildReply env st addr buf options dhcp_msg_type mac_addr mac_str
        gi_addr gi_str pxe uuid currentstate newstate).out = true := by
  unfold buildReply
  dsimp only
  repeat' split
  all_goals first
    | (left; rfl)
    | exact finishReply_states_cases _ _ _ _ _ _ _ _ _ _ _ _ _ _ _ _

theorem buildReply_uuid_cases (env : Env) (st : ServerState)
    (addr : String × Nat) (buf : Fields) (options : List (Nat × Bytes))
    (dhcp_msg_type : Option Nat) (mac_addr : Bytes) (mac_str : String)
    (gi_addr : Bytes) (gi_str : String) (pxe : Bool) (uuid : Option Bytes)
    (currentstate newstate : Nat) :
    (buildReply env st addr buf options dhcp_msg_type mac_addr mac_str gi_addr
        gi_str pxe uuid currentstate newstate).st.uuidpool = st.uuidpool ∨
    (buildReply env st addr buf options dhcp_msg_type mac_addr mac_str gi_addr
        gi_str pxe uuid currentstate newstate).out ≠ .noReply := by
  unfold buildReply
  dsimp only
  repeat' split
  all_goals first
    | (left; rfl)
    | exact finishReply_uuid_cases _ _ _ _ _ _ _ _ _ _ _ _ _ _ _ _

theorem handleOpts_phase_cases (env : Env) (st : ServerState)
    (addr : String × Nat) (buf : Fields) (options : List (Nat × Bytes))
    (k : String) :
    phaseOf (handleOpts env st addr buf options).st.states k =
      phaseOf st.states k ∨
    isSent (handleOpts env st addr buf options).out = true := by
  unfold handleOpts
  dsimp only
  repeat' split
  all_goals first
    | (left; rfl)
    | (left; exact phaseOf_dsetdefault _ _ _)
    | (refine Or.imp ?_ id (buildReply_states_cases _ _ _ _ _ _ _ _ _ _ _ _ _ _)
       intro h
       rw [h]
       exact phaseOf_dsetdefault _ _ _)

theorem handleOpts_uuid_cases (env : Env) (st : ServerState)
    (addr : String × Nat) (buf : Fields) (options : List (Nat × Bytes)) :
    (handleOpts env st addr buf options).st.uuidpool = st.uuidpool ∨
    (handleOpts env st addr buf options).out ≠ .noReply := by
  unfold handleOpts
  dsimp only
  repeat' split
  all_goals first
    | (left; rfl)
    | exact buildReply_uuid_cases _ _ _ _ _ _ _ _ _ _ _ _ _ _

theorem handle_phase_cases (env : Env) (st : ServerState) (addr : String × Nat)
    (data : Bytes) (k : String) :
    phaseOf (handle env st addr data).st.states k = phaseOf st.states k ∨
    isSent (handle env st addr data).out = true := by
  unfold handle
  dsimp only
  repeat' split
  all_goals first
    | (left; rfl)
    | exact handleOpts_phase_cases _ _ _ _ _ _

theorem handle_uuid_cases (env : Env) (st : ServerState) (addr : String × Nat)
    (data : Bytes) :
    (handle env st addr data).st.uuidpool = st.uuidpool ∨
    (handle env st addr data).out ≠ .noReply := by
  unfold handle
  dsimp only
  repeat' split
  all_goals first
    | (left; rfl)
    | exact handleOpts_uuid_cases _ _ _ _ _

/-! ### The session state machine, spec side (claim C2) -/

/-- The spec's session phases. -/
inductive Phase where
  | Idle
  | Pxe
  | Dhcp
deriving DecidableEq

/-- Encoding of spec phases as the server's state codes. -/
def Phase.toCode : Phase → Nat
  | .Idle => ST_IDLE
  | .Pxe => ST_PXE
  | .Dhcp => ST_DHCP

/-- The transition table exactly as claim C2 states it: from Idle,
(pxe, Discover) goes to Pxe, anything else stays; from Pxe,
(non-pxe, Request) goes to Dhcp, anything else stays; from Dhcp, any pxe
input goes back to Pxe, anything else stays. -/
def specNextPhase : Phase → Bool → Option Nat → Phase
  | .Idle, pxe_mode, msg_type =>
    if pxe_mode = true ∧ msg_type = some DHCP_DISCOVER then .Pxe else .Idle
  | .Pxe, pxe_mode, msg_type =>
    if pxe_mode = false ∧ msg_type = some DHCP_REQUEST then .Dhcp else .Pxe
  | .Dhcp, pxe_mode, _ =>
    if pxe_mode = true then .Pxe else .Dhcp

/-! ### The claims -/

/-- C1 (code bug): evaluating the handler at the failing input.  For a
BOOTREQUEST whose client-address and relay-gateway fields are both all
zeros, the reply is transmitted to ("0.0.0.0", 67) — the stringified zero
gateway at port 67 — because `if gi_addr:` tests a non-empty 4-byte byte
string, which is always truthy, so the gateway override also fires for a
zero relay-gateway field.  The subnet broadcast the claim requires for this
input (netmask 255.255.255.0, leased address 192.168.1.50) would be
192.168.1.255 at the sender's port. -/
theorem claim_C1_reply_destination :
    sentDest (handle env0 st0 sender0 dataPxeDiscover).out = some ("0.0.0.0", 67) ∧
    inttoip ((iptoint "192.168.1.50" &&& iptoint env0.mask) |||
      (4294967295 - iptoint env0.mask)) = "192.168.1.255" ∧
    (("0.0.0.0", 67) : String × Nat) ≠ ("192.168.1.255", sender0.2) := by
  refine ⟨by decide, by decide, by decide⟩

/-- C2: the per-MAC session phase follows exactly the claimed transition
table: a MAC with no stored session is observed at Idle, and the handler's
`newstate` computation agrees with the spec table on every phase and
input. -/
theorem claim_C2_state_machine :
    (∀ (states : List (String × Nat)) (mac : String),
      dget states mac = none → phaseOf states mac = Phase.toCode .Idle) ∧
    (∀ (s : Phase) (pxe_mode : Bool) (msg_type : Option Nat),
      nextStateOf s.toCode pxe_mode msg_type =
        (specNextPhase s pxe_mode msg_type).toCode) := by
  constructor
  · intro states mac h
    simp [phaseOf, h, Phase.toCode]
  · intro s pxe_mode msg_type
    cases s <;> cases pxe_mode <;>
      by_cases h1 : msg_type = some DHCP_DISCOVER <;>
      by_cases h2 : msg_type = some DHCP_REQUEST <;>
      simp_all [nextStateOf, specNextPhase, Phase.toCode, ST_IDLE, ST_PXE,
        ST_DHCP, DHCP_DISCOVER, DHCP_REQUEST]

/-- Witness for C2: a fresh MAC is Idle, and (Idle, PXE, Discover) steps to
Pxe. -/
theorem claim_C2_state_machine_witness :
    phaseOf [] "00:01:02:03:04:05" = Phase.toCode .Idle ∧
    nextStateOf Phase.Idle.toCode true (some DHCP_DISCOVER) =
      (specNextPhase Phase.Idle true (some DHCP_DISCOVER)).toCode :=
  ⟨claim_C2_state_machine.1 [] "00:01:02:03:04:05" rfl,
   claim_C2_state_machine.2 .Idle true (some DHCP_DISCOVER)⟩

/-- C3: an option stream that reaches a tag outside the known table before
the 255 terminator produces no mapping at all — `parse_options` cannot
return `.ok`, whatever options preceded the unknown tag (it returns the
Python `None` of the unknown-tag branch, or raises on a truncated triple) —
and the handler transmits nothing for any datagram carrying such a tail. -/
theorem claim_C3_unknown_tag_drops (ts : List (Nat × Bytes)) (u : Nat)
    (body : List Nat) (hts : goodTags ts = true) (hku : knownTag u = false)
    (h0 : u ≠ 0) (h255 : u ≠ 255) :
    (∀ m, parse_options (encodeTriples ts ++ u :: body) ≠ .ok m) ∧
    (∀ (env : Env) (st : ServerState) (addr : String × Nat) (data : Bytes),
      data.drop DHCPFormatSize = encodeTriples ts ++ u :: body →
      isSent (handle env st addr data).out = false) := by
  have hres : parse_options (encodeTriples ts ++ u :: body) = .exn ∨
      parse_options (encodeTriples ts ++ u :: body) = .unknown u := by
    unfold parse_options
    rw [parseA_encodeTriples ts [] (u :: body) hts]
    match body with
    | [] => exact .inl (parseA_short _ u h0 h255)
    | l :: r2 =>
      by_cases hl : r2.length < l
      · exact .inl (parseA_badlen _ u l r2 h0 h255 hl)
      · exact .inr (parseA_unknown _ u l r2 h0 h255 (Nat.le_of_not_lt hl) hku)
  constructor
  · intro m hm
    rcases hres with h | h <;> rw [hm] at h <;> exact ParseRes.noConfusion h
  · intro env st addr data hd
    by_cases h1 : data.length < DHCPFormatSize
    · simp [handle, h1, isSent]
    · by_cases h2 : sbyte (unpackDHCP data).op ≠ (BOOTREQUEST : Int)
      · simp [handle, h1, h2, isSent]
      · rcases hres with h | h <;> simp [handle, h1, h2, hd, h, isSent]

/-- Witness for C3: tag 62 is unknown; a stream with a known option before
it parses to no mapping and a request carrying it is not answered. -/
theorem claim_C3_unknown_tag_drops_witness :
    parse_options [12, 1, 65, 62, 0] ≠ .ok [] ∧
    isSent (handle env0 st0 sender0 (mkData 1 [] [] chaddr0 [12, 1, 65, 62, 0])).out
      = false :=
  ⟨(claim_C3_unknown_tag_drops [(12, [65])] 62 [0] (by decide) (by decide)
      (by decide) (by decide)).1 [],
   (claim_C3_unknown_tag_drops [(12, [65])] 62 [0] (by decide) (by decide)
      (by decide) (by decide)).2 env0 st0 sender0 _ (by decide)⟩

/-- C4 (code bug): evaluating the parser at the failing input.  On the
stream `[0x00, 0xff]` — a pad byte then the terminator — the parser loops
forever (`continue` on tag 0 never advances `tail`), so it does not
terminate as the claim requires.  On pad-free well-formed streams the rest
of the claim holds: parsing stops at the first 255, the result is
insensitive to trailing bytes, and the mapping's keys are exactly the tags
present before the terminator. -/
theorem claim_C4_terminator_parse :
    parse_options [0, 255] = .diverge ∧
    (∀ (ts : List (Nat × Bytes)) (tr tr' : List Nat), goodTags ts = true →
      parse_options (encodeTriples ts ++ 255 :: tr) =
        .ok (ts.foldl (fun m kv => dset m kv.1 kv.2) []) ∧
      parse_options (encodeTriples ts ++ 255 :: tr) =
        parse_options (encodeTriples ts ++ 255 :: tr') ∧
      (∀ k, (dget (ts.foldl (fun m kv => dset m kv.1 kv.2) []) k).isSome = true ↔
        k ∈ ts.map Prod.fst)) := by
  constructor
  · decide
  · intro ts tr tr' hts
    have he : ∀ s : List Nat, parse_options (encodeTriples ts ++ 255 :: s) =
        .ok (ts.foldl (fun m kv => dset m kv.1 kv.2) []) := by
      intro s
      unfold parse_options
      rw [parseA_encodeTriples ts [] (255 :: s) hts, parseA_end]
    refine ⟨he tr, by rw [he tr, he tr'], ?_⟩
    intro k
    rw [dget_foldl_dset]
    simp [dget]

/-- Witness for C4: one triple (tag 12, one byte), two different trailers,
key membership checked at tag 12. -/
theorem claim_C4_terminator_parse_witness :
    parse_options (encodeTriples [(12, [65])] ++ 255 :: [9]) =
      .ok ([(12, [65])].foldl (fun m kv => dset m kv.1 kv.2) []) ∧
    ((dget ([(12, [65])].foldl (fun m kv => dset m kv.1 kv.2) []) 12).isSome = true ↔
      12 ∈ [(12, [65])].map Prod.fst) :=
  ⟨((claim_C4_terminator_parse.2 [(12, [65])] [9] [] (by decide)).1),
   ((claim_C4_terminator_parse.2 [(12, [65])] [9] [] (by decide)).2.2 12)⟩

/-- C5 (code bug): evaluating the handler at the failing input.  A 4-byte
datagram is logged as too small but the handler does not return;
`struct.unpack` then raises, so an exception escapes the handler (caught
only by the outer `forever` loop), contradicting "completes without any
error escaping the handler".  The op-field half of the claim does hold: a
full-size record whose op is not BOOTREQUEST is dropped cleanly, with no
reply and no state change. -/
theorem claim_C5_undersized_rejection :
    (handle env0 st0 sender0 [1, 1, 6, 0]).out = .exn ∧
    (handle env0 st0 sender0 dataNotRequest).out = .noReply ∧
    (handle env0 st0 sender0 dataNotRequest).st = st0 := by
  refine ⟨by decide, by decide, by decide⟩

/-- C6 counterexample: the second all-zero-client-address request from the
same MAC still performs an external resolution call (`resolveCalls = 1`,
where the claim requires none), even though the recorded lease is reused:
the pool still maps the MAC to the first resolved address, and the offer
(yiaddr bytes of the sent packet) echoes it. -/
theorem claim_C6_counterexample :
    (handle envSimple (handle envSimple st0 sender0 dataPlainDiscover).st sender0
        dataPlainDiscover).resolveCalls = 1 ∧
    (handle envSimple (handle envSimple st0 sender0 dataPlainDiscover).st sender0
        dataPlainDiscover).st.ippool = [("00:01:02:03:04:05", "192.168.1.50")] ∧
    (sentPkt (handle envSimple (handle envSimple st0 sender0 dataPlainDiscover).st
        sender0 dataPlainDiscover).out).map (fun p => slice p 16 4) =
      some [192, 168, 1, 50] := by
  refine ⟨by decide, by decide, by decide⟩

/-- C6 as amended: with an all-zero client address, the first request
records the externally resolved host address as the lease and offers it,
and later requests reuse the recorded lease address as the offer — but the
external resolution is performed again on every such request
(`get_host_data_for_mac` resolves whenever a non-empty hostname is
configured, regardless of the lease pool). -/
theorem claim_C6_amended :
    (∀ (env : Env) (ippool : List (String × String)) (mac_str : String)
        (hd : HostData) (rc : Nat),
      get_host_data_for_mac env mac_str = (.ok hd, rc) →
      hd.address ≠ "" →
      dget ippool mac_str = none →
      allocate env ippool mac_str =
        (.ok hd.address hd, dset ippool mac_str hd.address, rc)) ∧
    (∀ (env : Env) (ippool : List (String × String)) (mac_str : String)
        (hd : HostData) (rc : Nat) (ip0 : String),
      get_host_data_for_mac env mac_str = (.ok hd, rc) →
      hd.address ≠ "" →
      dget ippool mac_str = some ip0 → ip0 ≠ "" →
      allocate env ippool mac_str = (.ok ip0 hd, ippool, rc)) ∧
    (∀ (env : Env) (mac_str : String) (lease : Lease) (hostname : String),
      get_lease_for_mac env mac_str = some lease →
      lease.hostname = some hostname → hostname ≠ "" →
      (get_host_data_for_mac env mac_str).2 = 1) := by
  refine ⟨?_, ?_, ?_⟩
  · intro env ippool mac_str hd rc hget hne hnone
    simp [allocate, hget, hne, hnone]
  · intro env ippool mac_str hd rc ip0 hget hne hhit hip0
    simp [allocate, hget, hne, hhit, hip0]
  · intro env mac_str lease hostname hlease hhost hne
    unfold get_host_data_for_mac
    rw [hlease]
    dsimp only
    rw [hhost]
    dsimp only
    rw [if_neg hne]
    cases hr : env.resolve hostname with
    | none => simp [hr]
    | some ip => cases hbf : lease.boot_file <;> simp [hr, hbf]

/-- Witness for C6 as amended, at the concrete fixture environment. -/
theorem claim_C6_amended_witness :
    allocate env0 [] "00:01:02:03:04:05" =
      (.ok "192.168.1.50"
        ⟨"192.168.1.50", "host1.example.net", "example.net", "pxelinux.0"⟩,
       [("00:01:02:03:04:05", "192.168.1.50")], 1) ∧
    (get_host_data_for_mac env0 "00:01:02:03:04:05").2 = 1 :=
  ⟨by
    have h := claim_C6_amended.1 env0 [] "00:01:02:03:04:05"
      ⟨"192.168.1.50", "host1.example.net", "example.net", "pxelinux.0"⟩ 1
      (by decide) (by decide) (by decide)
    simpa using h,
   claim_C6_amended.2.2 env0 "00:01:02:03:04:05" lease0 "host1.example.net"
    (by decide) (by decide) (by decide)⟩

/-- C7 (code bug): evaluating the handler at the failing input.  A non-PXE
DHCP request with a non-zero client address (from a MAC already in the PXE
phase, so the idle-drop policy does not apply) reaches the server-name
assignment with the local variable `host_data` never bound — the
non-zero-ciaddr branch does not assign it — so `UnboundLocalError` escapes
the reply construction and no reply is ever transmitted, where the claim
requires a reply echoing the client address. -/
theorem claim_C7_nonzero_ciaddr :
    (handle env0 stPxe sender0 dataCiaddrRequest).out = .exn ∧
    (handle env0 stPxe sender0 dataCiaddrRequest).st = stPxe := by
  refine ⟨by decide, by decide⟩

/-- C8: when the computed next state is Idle and the allow-simple-DHCP flag
is unset or falsy, the request is silently dropped — no reply, the MAC's
observed phase unchanged, the UUID and lease pools untouched; when the flag
is set, the same plain-DHCP Idle request is answered. -/
theorem claim_C8_idle_drop_policy :
    (∀ (env : Env) (st : ServerState) (addr : String × Nat) (data : Bytes)
        (options : List (Nat × Bytes)) (mt : Option Nat),
      ¬ data.length < DHCPFormatSize →
      sbyte (unpackDHCP data).op = (BOOTREQUEST : Int) →
      parse_options (data.drop DHCPFormatSize) = .ok options →
      dhcpMsgTypeOf options = .val mt →
      nextStateOf (phaseOf st.states (macStr ((unpackDHCP data).chaddr.take 6)))
        ((pxeUuid options).isSome) mt = ST_IDLE →
      simpleDhcp env = false →
      (handle env st addr data).out = .noReply ∧
      phaseOf (handle env st addr data).st.states
          (macStr ((unpackDHCP data).chaddr.take 6)) =
        phaseOf st.states (macStr ((unpackDHCP data).chaddr.take 6)) ∧
      (handle env st addr data).st.uuidpool = st.uuidpool ∧
      (handle env st addr data).st.ippool = st.ippool) ∧
    isSent (handle envSimple st0 sender0 dataPlainDiscover).out = true := by
  constructor
  · intro env st addr data options mt h1 h2 h3 h4 h5 h6
    have e1 : handle env st addr data =
        ⟨.noReply, ⟨st.uuidpool, st.ippool,
          dsetdefault st.states (macStr ((unpackDHCP data).chaddr.take 6)) ST_IDLE⟩,
         0⟩ := by
      simp [handle, h1, h2, h3, handleOpts, h4, h5, h6, BOOTREQUEST]
    rw [e1]
    exact ⟨rfl, phaseOf_dsetdefault _ _ _, rfl, rfl⟩
  · decide

/-- Witness for C8 at the concrete fixture request. -/
theorem claim_C8_idle_drop_policy_witness :
    (handle env0 st0 sender0 dataPlainDiscover).out = .noReply ∧
    phaseOf (handle env0 st0 sender0 dataPlainDiscover).st.states
        (macStr ((unpackDHCP dataPlainDiscover).chaddr.take 6)) =
      phaseOf st0.states (macStr ((unpackDHCP dataPlainDiscover).chaddr.take 6)) ∧
    (handle env0 st0 sender0 dataPlainDiscover).st.uuidpool = st0.uuidpool ∧
    (handle env0 st0 sender0 dataPlainDiscover).st.ippool = st0.ippool :=
  claim_C8_idle_drop_policy.1 env0 st0 sender0 dataPlainDiscover [(53, [1])]
    (some 1) (by decide) (by decide) (by decide) (by decide) (by decide) (by decide)

/-- C9 counterexample: with `sendto` raising, a PXE discover still leaves a
freshly written UUID-cache entry: the UUID cache is updated before the send,
refuting "neither the UUID cache entry nor the stored phase ... has been
modified" for failed sends.  (`envNoSend` differs from `env0` only in
`send_ok`.) -/
theorem claim_C9_counterexample :
    (handle envNoSend st0 sender0 dataPxeDiscover).out = .exn ∧
    st0.uuidpool = [] ∧
    (handle envNoSend st0 sender0 dataPxeDiscover).st.uuidpool =
      [(chaddr0, List.range 16)] := by
  refine ⟨by decide, by decide, by decide⟩

/-- C9 as amended: the stored per-MAC phase is committed only by a fully
successful transmit — any outcome other than a sent datagram leaves every
MAC's observed phase unchanged — and any cleanly aborted reply (every
no-reply path, including a PXE option-builder failure) also leaves the UUID
cache unchanged; the UUID cache, however, is written immediately before the
send, so a failed send can leave a freshly cached UUID (see the
counterexample). -/
theorem claim_C9_amended :
    (∀ (env : Env) (st : ServerState) (addr : String × Nat) (data : Bytes)
        (k : String),
      isSent (handle env st addr data).out = false →
      phaseOf (handle env st addr data).st.states k = phaseOf st.states k) ∧
    (∀ (env : Env) (st : ServerState) (addr : String × Nat) (data : Bytes),
      (handle env st addr data).out = .noReply →
      (handle env st addr data).st.uuidpool = st.uuidpool) := by
  constructor
  · intro env st addr data k h
    rcases handle_phase_cases env st addr data k with h' | h'
    · exact h'
    · rw [h'] at h
      exact absurd h (by simp)
  · intro env st addr data h
    rcases handle_uuid_cases env st addr data with h' | h'
    · exact h'
    · exact absurd h h'

/-- Witness for C9 as amended: a dropped plain-DHCP request (flag unset)
changes neither the observed phase nor the UUID cache. -/
theorem claim_C9_amended_witness :
    phaseOf (handle env0 st0 sender0 dataPlainDiscover).st.states
        "00:01:02:03:04:05" = phaseOf st0.states "00:01:02:03:04:05" ∧
    (handle env0 st0 sender0 dataPlainDiscover).st.uuidpool = st0.uuidpool :=
  ⟨claim_C9_amended.1 env0 st0 sender0 dataPlainDiscover "00:01:02:03:04:05"
    (by decide),
   claim_C9_amended.2 env0 st0 sender0 dataPlainDiscover (by decide)⟩

/-- The class-id value echoed inside a successfully built PXE option block,
read back through the server's own option parser. -/
def pxeEcho60 (options : List (Nat × Bytes)) (server : Bytes) : Option Bytes :=
  match build_pxe_options options server with
  | .ok b =>
    match parse_options b with
    | .ok m => dget m 60
    | _ => none
  | _ => none

/-- The truncation claim C10 describes: cut at the first colon, leaving a
colon-free value unchanged. -/
def truncAtColon (cc : Bytes) : Bytes :=
  match findIdx 58 cc with
  | some i => cc.take i
  | none => cc

/-- C10 counterexample: for the colon-free class id "PXEClient" the echoed
value is "PXEClien" — the last byte is dropped (`find` returned `-1`) —
which differs from the claimed truncation-at-first-colon (the identity
here). -/
theorem claim_C10_counterexample :
    pxeEcho60 [(97, uuid17), (60, strBytes "PXEClient")] (inet_aton "10.40.13.161")
      = some (strBytes "PXEClien") ∧
    truncAtColon (strBytes "PXEClient") = strBytes "PXEClient" ∧
    strBytes "PXEClien" ≠ strBytes "PXEClient" := by
  refine ⟨by decide, by decide, by decide⟩

/-- C10 as amended: in PXE mode a missing option 60 makes the option
builder fail (Python `None` or, for oversized values, an uncaught pack
error), so the whole reply is aborted and no bytes are sent (shown on a
concrete PXE request without option 60); when options 97 and 60 are both
present, the echoed class id equals the inbound value truncated at its
first colon whenever a colon occurs, and with no colon present `find`
returns `-1` and the last byte is dropped instead. -/
theorem claim_C10_amended :
    (∀ (options : List (Nat × Bytes)) (server : Bytes),
      dget options 60 = none →
      build_pxe_options options server = .keyErr ∨
      build_pxe_options options server = .packErr) ∧
    (handle env0 st0 sender0 dataPxeNo60).out = .noReply ∧
    (∀ (opts : List (Nat × Bytes)) (server : Bytes) (uuid cc : Bytes),
      dget opts 97 = some uuid → dget opts 60 = some cc →
      uuid.length ≤ 255 → (pyTruncColon cc).length ≤ 255 →
      pxeEcho60 opts server = some (pyTruncColon cc)) ∧
    (∀ cc : Bytes, 58 ∈ cc → pyTruncColon cc = truncAtColon cc) := by
  refine ⟨?_, by decide, ?_, ?_⟩
  · intro options server h60
    unfold build_pxe_options
    cases h97 : dget options 97 with
    | none => exact .inl rfl
    | some uuid =>
      by_cases hu : 255 < uuid.length
      · simp [hu]
      · simp [hu, h60]
  · intro opts server uuid cc h97 h60 hu htc
    have hb : build_pxe_options opts server =
        .ok (encodeTriples [(97, uuid), (60, pyTruncColon cc), (43, pxeVendor server)]
          ++ 255 :: [0, 0]) := by
      simp only [build_pxe_options, h97, h60, Nat.not_lt.mpr hu, Nat.not_lt.mpr htc,
        if_false, ite_false, encodeTriples, List.cons_append, List.nil_append,
        List.append_nil, List.append_assoc]
    have hp : parse_options (encodeTriples
        [(97, uuid), (60, pyTruncColon cc), (43, pxeVendor server)] ++ 255 :: [0, 0]) =
        .ok [(97, uuid), (60, pyTruncColon cc), (43, pxeVendor server)] := by
      unfold parse_options
      rw [parseA_encodeTriples _ _ _ (by simp [goodTags, knownTag, DHCP_OPTIONS_keys]),
        parseA_end]
      simp [dset]
    simp [pxeEcho60, hb, hp, dget]
  · intro cc hmem
    unfold pyTruncColon truncAtColon
    cases hf : findIdx 58 cc with
    | some i => rfl
    | none =>
      exfalso
      induction cc with
      | nil => exact (List.not_mem_nil 58) hmem
      | cons x xs ih =>
        by_cases hx : x = 58
        · simp [findIdx, hx] at hf
        · simp [findIdx, Ne.symm hx, hx] at hf
          rcases List.mem_cons.mp hmem with h | h
          · exact hx h.symm
          · exact ih h (by simp [hf])

/-- Witness for C10 as amended: a colon-carrying class id is echoed
truncated at the colon. -/
theorem claim_C10_amended_witness :
    pxeEcho60 [(97, uuid17), (60, ccPXE)] (inet_aton "10.40.13.161") =
      some (pyTruncColon ccPXE) :=
  claim_C10_amended.2.2.1 [(97, uuid17), (60, ccPXE)] (inet_aton "10.40.13.161")
    uuid17 ccPXE (by decide) (by decide) (by decide) (by decide)

end Pybootd
